import Mathlib

/-!
Shallow embedding of `mistralrs-core/src/pipeline/gemma.rs` (the Gemma
Loader/Pipeline component of the mistral.rs inference engine) and proofs of
the specification claims about it.

Modelling conventions:
 - External collaborator types (paths, LoRA configs, tensors, the opaque
   interior of the candle models, ...) are opaque type parameters bundled in
   the structure `ExtTypes`.
 - Fallible external calls (filesystem reads, safetensors loading, model
   construction, tokenizer loading, tensor ops, the per-sequence sampler)
   are fields of explicit environment records (`SetupEnv`, `ForwardEnv`,
   `SampleEnv`) returning `Except RtError` / `Except String` values, so the
   embedded functions are ordinary total Lean functions.
 - Rust panics (`unwrap` on `None`/`Err`, `unreachable`, explicit panics)
   are modelled as `Except.error (RtError.panic msg)` with the message the
   Rust runtime would print; process termination is thus visible as an
   error value that is never an `ok` result.
 - Machine integers (`usize`, `u32`) are modelled as `Nat`; the only
   arithmetic the source performs on them is `saturating_sub`, which is
   exactly `Nat` subtraction.
-/

namespace Gemma

/-- The bundle of opaque external collaborator types. Each field stands for
a type the source file uses but never inspects structurally. -/
structure ExtTypes : Type 1 where
  /-- `PathBuf` -/
  P : Type
  /-- `mistralrs_lora::LoraConfig` -/
  LC : Type
  /-- `crate::xlora_models::XLoraConfig` -/
  XC : Type
  /-- `mistralrs_lora::Ordering` -/
  ORD : Type
  /-- `candle_nn::Activation` -/
  ACT : Type
  /-- the `VarBuilder` produced by `from_mmaped_safetensors` -/
  VB : Type
  /-- the opaque interior state of `models::gemma::Model` -/
  MS : Type
  /-- the opaque interior state of `xlora_models::XLoraGemma` -/
  XS : Type
  /-- `candle_core::Tensor` -/
  T : Type
  /-- `candle_sampling::logits_processor::Logprobs` -/
  LPB : Type
  /-- the per-sequence `LogitsProcessor` (sampler) -/
  SMP : Type
  /-- `f64` values that are only carried, never computed with, in this file -/
  F : Type

/-- `candle_core::DType`. -/
inductive DType where
  | U8 | U32 | I64 | BF16 | F16 | F32 | F64
deriving DecidableEq, Repr

/-- `candle_core::Device`: CPU, a CUDA device with an ordinal, or a Metal
device with an ordinal. -/
inductive Device where
  | Cpu : Device
  | Cuda : Nat → Device
  | Metal : Nat → Device
deriving DecidableEq, Repr

/-- `Device::is_cuda`. -/
def Device.is_cuda : Device → Bool
  | .Cuda _ => true
  | _ => false

/-- `super::ModelKind`: the six variants are exactly the arms of the
exhaustive `match self.kind` in `GemmaLoader::_setup_model`. -/
inductive ModelKind where
  | Normal
  | QuantizedGGUF
  | QuantizedGGML
  | XLoraNormal
  | XLoraGGUF
  | XLoraGGML
deriving DecidableEq, Repr

/-- Runtime error/panic values. `panic msg` models Rust process
termination with the given message; the other constructors model the
recoverable `anyhow::Error` values flowing through `?`. -/
inductive RtError where
  | panic (msg : String)
  | ioError (msg : String)
  | configParse
  | weightLoad (msg : String)
  | modelBuild (msg : String)
  | tokenizerError (msg : String)
  | templateError (msg : String)
  | samplingError (msg : String)
deriving DecidableEq, Repr

/-- The panic message of `Option::unwrap` on `None`. -/
def unwrapNoneMsg : String := "called `Option::unwrap()` on a `None` value"

/-- The panic message of `unreachable!()`. -/
def unreachableMsg : String := "internal error: entered unreachable code"

/-- `Option::unwrap`: the value when present, a panic otherwise. -/
def unwrapO {α : Type} : Option α → Except RtError α
  | some a => Except.ok a
  | none => Except.error (RtError.panic unwrapNoneMsg)

/-- `GemmaSpecificConfig` (line 100). -/
structure GemmaSpecificConfig where
  repeat_last_n : Nat
deriving DecidableEq, Repr

/-- `default_max_position_embeddings` (lines 104-106). -/
def default_max_position_embeddings : Nat := 4096

/-- The raw JSON object handed to serde when deserializing `BasicConfig`:
each declared field is present (`some`) or absent (`none`). Producing this
record from raw bytes is the external `serde_json` front end; consuming it
is the struct-level deserialization embedded below. -/
structure RawConfigJson (ε : ExtTypes) where
  attention_bias : Option Bool
  head_dim : Option Nat
  hidden_act : Option ε.ACT
  hidden_size : Option Nat
  intermediate_size : Option Nat
  num_attention_heads : Option Nat
  num_hidden_layers : Option Nat
  num_key_value_heads : Option Nat
  rms_norm_eps : Option ε.F
  rope_theta : Option ε.F
  vocab_size : Option Nat
  max_position_embeddings : Option Nat

/-- `BasicConfig` (lines 108-124). -/
structure BasicConfig (ε : ExtTypes) where
  attention_bias : Bool
  head_dim : Nat
  hidden_act : ε.ACT
  hidden_size : Nat
  intermediate_size : Nat
  num_attention_heads : Nat
  num_hidden_layers : Nat
  num_key_value_heads : Nat
  rms_norm_eps : ε.F
  rope_theta : ε.F
  vocab_size : Nat
  max_position_embeddings : Nat

/-- A serde-required field: absent means a deserialization error. -/
def reqField {α : Type} : Option α → Except RtError α
  | some a => Except.ok a
  | none => Except.error RtError.configParse

/-- Struct-level deserialization of `BasicConfig`: every field without a
serde default is required; `max_position_embeddings` carries
`#[serde(default = "default_max_position_embeddings")]` (line 122) and so
falls back to `default_max_position_embeddings` when absent. -/
def parseBasicConfig {ε : ExtTypes} (j : RawConfigJson ε) : Except RtError (BasicConfig ε) := do
  let attention_bias ← reqField j.attention_bias
  let head_dim ← reqField j.head_dim
  let hidden_act ← reqField j.hidden_act
  let hidden_size ← reqField j.hidden_size
  let intermediate_size ← reqField j.intermediate_size
  let num_attention_heads ← reqField j.num_attention_heads
  let num_hidden_layers ← reqField j.num_hidden_layers
  let num_key_value_heads ← reqField j.num_key_value_heads
  let rms_norm_eps ← reqField j.rms_norm_eps
  let rope_theta ← reqField j.rope_theta
  let vocab_size ← reqField j.vocab_size
  Except.ok {
    attention_bias := attention_bias
    head_dim := head_dim
    hidden_act := hidden_act
    hidden_size := hidden_size
    intermediate_size := intermediate_size
    num_attention_heads := num_attention_heads
    num_hidden_layers := num_hidden_layers
    num_key_value_heads := num_key_value_heads
    rms_norm_eps := rms_norm_eps
    rope_theta := rope_theta
    vocab_size := vocab_size
    max_position_embeddings :=
      j.max_position_embeddings.getD default_max_position_embeddings }

/-- `models::gemma::Config` as populated at lines 231-244. -/
structure Config (ε : ExtTypes) where
  vocab_size : Nat
  hidden_size : Nat
  intermediate_size : Nat
  num_hidden_layers : Nat
  num_attention_heads : Nat
  num_key_value_heads : Nat
  hidden_act : ε.ACT
  max_position_embeddings : Nat
  rms_norm_eps : ε.F
  rope_theta : ε.F
  attention_bias : Bool
  head_dim : Nat

/-- `GemmaModelPaths` (lines 36-46). -/
structure GemmaModelPaths (ε : ExtTypes) where
  tokenizer_filename : ε.P
  config_filename : ε.P
  template_filename : ε.P
  filenames : List ε.P
  xlora_adapter_filenames : Option (List (String × ε.P))
  xlora_adapter_configs : Option (List (String × ε.LC))
  classifier_path : Option ε.P
  classifier_config : Option ε.XC
  xlora_ordering : Option ε.ORD

/-- `crate::models::Cache` (external): observably a lockable vector of
optional key/value tensor pairs; `lock().len()` is the length of that
vector. -/
structure Cache (ε : ExtTypes) where
  entries : List (Option (ε.T × ε.T))

/-- `Mutex::lock` on a `Cache`: yields the guarded vector. -/
def Cache.lock {ε : ExtTypes} (c : Cache ε) : List (Option (ε.T × ε.T)) :=
  c.entries

/-- `models::gemma::Model` as used by this file: the public fields the
pipeline reads (`device`, `cache`, `max_seq_len`) plus opaque interior
state. -/
structure NormalModel (ε : ExtTypes) where
  device : Device
  cache : Cache ε
  max_seq_len : Nat
  state : ε.MS

/-- `xlora_models::XLoraGemma` as used by this file: the public fields the
pipeline reads plus opaque interior state. -/
structure XLoraModel (ε : ExtTypes) where
  device : Device
  cache : Cache ε
  max_seq_len : Nat
  state : ε.XS

/-- The private `enum Model` (lines 31-34). -/
inductive Model (ε : ExtTypes) where
  | Normal : NormalModel ε → Model ε
  | XLoraNormal : XLoraModel ε → Model ε

/-- `tokenizers::Tokenizer` (external) as used by this file: only
`get_vocab(with_added_tokens)` followed by a string lookup is observed, so
it is modelled by that lookup function. -/
structure Tokenizer where
  getVocab : Bool → String → Option Nat

/-- The added-token record form of the EOS marker: the pipeline only reads
its `content` string. -/
structure AddedTokenRec where
  content : String

/-- `crate::pipeline::ChatTemplate` (external) as used by this file: only
the `eos_token` field is observed; it is `Either` a literal string or an
added-token record. -/
structure ChatTemplate where
  eos_token : String ⊕ AddedTokenRec

/-- `GemmaPipeline` (lines 78-84). -/
structure GemmaPipeline (ε : ExtTypes) where
  model : Model ε
  tokenizer : Tokenizer
  config : GemmaSpecificConfig
  no_kv_cache : Bool
  chat_template : ChatTemplate

/-- `GemmaLoader` (lines 86-97). -/
structure GemmaLoader (ε : ExtTypes) where
  model_id : String
  config : GemmaSpecificConfig
  quantized_model_id : Option String
  quantized_filename : Option String
  xlora_model_id : Option String
  kind : ModelKind
  xlora_order : Option ε.ORD
  no_kv_cache : Bool
  chat_template : Option String
  tokenizer_json : Option String

/-- The external collaborators `_setup_model` calls, as an explicit
environment: filesystem + serde front end for the config, safetensors
loading, the two model constructors, tokenizer loading, and the
`deserialize_chat_template!` macro (which reads the template file and the
optional override string of the loader). -/
structure SetupEnv (ε : ExtTypes) where
  readConfigJson : ε.P → Except RtError (RawConfigJson ε)
  fromMmapedSafetensors :
    List ε.P → List ε.P → DType → Device → Bool → Except RtError ε.VB
  normalNew : Config ε → ε.VB → Except RtError (NormalModel ε)
  xloraNew : Config ε → ε.VB → List (String × ε.LC) → ε.XC → ε.ORD →
    Except RtError (XLoraModel ε)
  tokenizerFromFile : ε.P → Except String Tokenizer
  chatTemplate : ε.P → Option String → Except RtError ChatTemplate

/-- `GemmaLoader::_setup_model` (lines 223-313). Reads and parses the
config, picks the default dtype from the device, dispatches on the loader
kind (`unreachable!()` for the four quantized/GGUF/GGML kinds; the
adapter-only path fields are `unwrap`ped only in the `XLoraNormal` arm),
loads the tokenizer, resolves the chat template, and assembles the
pipeline. -/
def GemmaLoader.setupModel {ε : ExtTypes} (env : SetupEnv ε)
    (self : GemmaLoader ε) (paths : GemmaModelPaths ε)
    (dtype : Option DType) (device : Device) :
    Except RtError (GemmaPipeline ε) := do
  let j ← env.readConfigJson paths.config_filename
  let basic_config ← parseBasicConfig j
  let config : Config ε := {
    vocab_size := basic_config.vocab_size
    hidden_size := basic_config.hidden_size
    intermediate_size := basic_config.intermediate_size
    num_hidden_layers := basic_config.num_hidden_layers
    num_attention_heads := basic_config.num_attention_heads
    num_key_value_heads := basic_config.num_key_value_heads
    hidden_act := basic_config.hidden_act
    max_position_embeddings := basic_config.max_position_embeddings
    rms_norm_eps := basic_config.rms_norm_eps
    rope_theta := basic_config.rope_theta
    attention_bias := basic_config.attention_bias
    head_dim := basic_config.head_dim }
  let default_dtype := if device.is_cuda then DType.BF16 else DType.F32
  let model : Model ε ← match self.kind with
    | ModelKind.QuantizedGGUF => Except.error (RtError.panic unreachableMsg)
    | ModelKind.QuantizedGGML => Except.error (RtError.panic unreachableMsg)
    | ModelKind.Normal => do
        let vb ← env.fromMmapedSafetensors paths.filenames []
          (dtype.getD default_dtype) device false
        let m ← env.normalNew config vb
        pure (Model.Normal m)
    | ModelKind.XLoraNormal => do
        let classifier ← unwrapO paths.classifier_path
        let adapter_files ← unwrapO paths.xlora_adapter_filenames
        let vb ← env.fromMmapedSafetensors (paths.filenames ++ [classifier])
          (adapter_files.map (fun x => x.2))
          (dtype.getD default_dtype) device false
        let adapter_configs ← unwrapO paths.xlora_adapter_configs
        let classifier_config ← unwrapO paths.classifier_config
        let ordering ← unwrapO paths.xlora_ordering
        let m ← env.xloraNew config vb adapter_configs classifier_config
          ordering
        pure (Model.XLoraNormal m)
    | ModelKind.XLoraGGUF => Except.error (RtError.panic unreachableMsg)
    | ModelKind.XLoraGGML => Except.error (RtError.panic unreachableMsg)
  let tokenizer ← (env.tokenizerFromFile paths.tokenizer_filename).mapError
    RtError.tokenizerError
  let chat_template ← env.chatTemplate paths.template_filename
    self.chat_template
  Except.ok {
    model := model
    tokenizer := tokenizer
    config := self.config
    no_kv_cache := self.no_kv_cache
    chat_template := chat_template }

/-- `GemmaPipeline::is_xlora` (lines 409-414). -/
def GemmaPipeline.is_xlora {ε : ExtTypes} (self : GemmaPipeline ε) : Bool :=
  match self.model with
  | Model.Normal _ => false
  | Model.XLoraNormal _ => true

/-- `GemmaPipeline::device` (lines 353-358). -/
def GemmaPipeline.device {ε : ExtTypes} (self : GemmaPipeline ε) : Device :=
  match self.model with
  | Model.Normal m => m.device
  | Model.XLoraNormal m => m.device

/-- `GemmaPipeline::cache` (lines 362-367). -/
def GemmaPipeline.cache {ε : ExtTypes} (self : GemmaPipeline ε) : Cache ε :=
  match self.model with
  | Model.Normal m => m.cache
  | Model.XLoraNormal m => m.cache

/-- `GemmaPipeline::num_hidden_layers` (lines 359-361):
`self.cache().lock().len()`. -/
def GemmaPipeline.num_hidden_layers {ε : ExtTypes}
    (self : GemmaPipeline ε) : Nat :=
  self.cache.lock.length

/-- `GemmaPipeline::tokenizer` (lines 386-388): a clone of the owned
tokenizer, i.e. the tokenizer value itself. -/
def GemmaPipeline.tokenizerOp {ε : ExtTypes} (self : GemmaPipeline ε) :
    Tokenizer :=
  self.tokenizer

/-- `GemmaPipeline::name` (lines 400-402). -/
def GemmaPipeline.name {ε : ExtTypes} (_ : GemmaPipeline ε) : String :=
  "gemma"

/-- `GemmaPipeline::get_max_seq_len` (lines 403-408). -/
def GemmaPipeline.get_max_seq_len {ε : ExtTypes}
    (self : GemmaPipeline ε) : Nat :=
  match self.model with
  | Model.Normal m => m.max_seq_len
  | Model.XLoraNormal m => m.max_seq_len

/-- `GemmaPipeline::has_no_kv_cache` (lines 415-417). -/
def GemmaPipeline.has_no_kv_cache {ε : ExtTypes}
    (self : GemmaPipeline ε) : Bool :=
  self.no_kv_cache

/-- `GemmaPipeline::get_chat_template` (lines 418-420). -/
def GemmaPipeline.get_chat_template {ε : ExtTypes}
    (self : GemmaPipeline ε) : ChatTemplate :=
  self.chat_template

/-- The EOS string the template resolves to: the `match` at lines 390-393
of `GemmaPipeline::eos_tok`, reading either the literal string or the
the `content` of the added-token record. -/
def GemmaPipeline.eosStr {ε : ExtTypes} (self : GemmaPipeline ε) : String :=
  match self.get_chat_template.eos_token with
  | Sum.inl lit => lit
  | Sum.inr added => added.content

/-- `GemmaPipeline::eos_tok` (lines 389-399): resolve the EOS string from
the chat template (literal or added-token content), look it up in
`get_vocab(true)`, and panic (`unwrap_or_else`) when the lookup misses. -/
def GemmaPipeline.eos_tok {ε : ExtTypes} (self : GemmaPipeline ε) :
    Except RtError Nat :=
  match self.tokenizer.getVocab true self.eosStr with
  | some id => Except.ok id
  | none => Except.error (RtError.panic
      ("Unable to extract `" ++ self.eosStr ++ "` EOS token."))

/-- A `Sequence` (external) as observed by this file: its ordered token
history (`get_toks`) and its owned sampler (`logits_processor`). -/
structure Sequence (ε : ExtTypes) where
  tokens : List Nat
  sampler : ε.SMP

/-- The 6-tuple returned by the external `calculate_inputs` collaborator
(lines 318-331): the incremental-path inputs are always present, the
full-path inputs are `Option`s. -/
structure CalcInputs (ε : ExtTypes) where
  input_ids : ε.T
  input_ids_full : Option ε.T
  seqlen_offsets : List Nat
  seqlen_offsets_full : Option (List Nat)
  seqlen_offsets_kernel : ε.T
  seqlen_offsets_full_kernel : Option ε.T

/-- The external collaborators `forward` calls: input assembly and the two
model forward computations. A `&mut self` model call is embedded as
returning the logits together with the updated model value. -/
structure ForwardEnv (ε : ExtTypes) where
  calculate_inputs :
    List (Sequence ε) → Bool → Bool → Device → Bool → CalcInputs ε
  normalForward : NormalModel ε → ε.T → List Nat → ε.T →
    Except String (ε.T × NormalModel ε)
  xloraForward : XLoraModel ε → ε.T → ε.T → List Nat → List Nat → ε.T →
    ε.T → Bool → Except String (ε.T × XLoraModel ε)

/-- The panic raised at lines 348-350 when the model computation fails. -/
def modelFailedMsg (e : String) : String :=
  "Model failed with error `" ++ e ++ "`. Please raise an issue."

/-- `GemmaPipeline::forward` (lines 317-352). Assembles inputs, dispatches
on the model variant (the `XLoraNormal` arm `unwrap`s the full-path
inputs), and on a model error panics rather than returning logits. The
`&mut self` receiver is embedded by returning the logits together with the
updated pipeline. -/
def GemmaPipeline.forward {ε : ExtTypes} (env : ForwardEnv ε)
    (self : GemmaPipeline ε) (input_toks : List (Sequence ε))
    (is_prompt : Bool) : Except RtError (ε.T × GemmaPipeline ε) :=
  let i := env.calculate_inputs input_toks is_prompt self.is_xlora
    self.device self.no_kv_cache
  match self.model with
  | Model.Normal m =>
      match env.normalForward m i.input_ids i.seqlen_offsets
        i.seqlen_offsets_kernel with
      | Except.ok (v, mNew) =>
          Except.ok (v, { self with model := Model.Normal mNew })
      | Except.error e => Except.error (RtError.panic (modelFailedMsg e))
  | Model.XLoraNormal m =>
      match i.input_ids_full, i.seqlen_offsets_full,
        i.seqlen_offsets_full_kernel with
      | some ids_full, some off_full, some off_full_kernel =>
          match env.xloraForward m i.input_ids ids_full i.seqlen_offsets
            off_full i.seqlen_offsets_kernel off_full_kernel
            self.no_kv_cache with
          | Except.ok (v, mNew) =>
              Except.ok (v, { self with model := Model.XLoraNormal mNew })
          | Except.error e => Except.error (RtError.panic (modelFailedMsg e))
      | _, _, _ => Except.error (RtError.panic unwrapNoneMsg)

/-- The external collaborators `sample` calls: the two tensor reshaping
operations (whose `Result`s the source `unwrap`s) and the per-sequence
sampler (whose `Result` flows out through `?`). The sampler may mutate its
own state, so it returns the updated sampler. -/
structure SampleEnv (ε : ExtTypes) where
  squeeze : ε.T → Nat → Except String ε.T
  to_dtype : ε.T → DType → Except String ε.T
  samplerSample : ε.SMP → ε.T → Option (List Nat) →
    Except String (ε.LPB × ε.SMP)

/-- The repetition-penalty context built at lines 376-380:
`start_at = toks.len().saturating_sub(repeat_last_n)` followed by the
slice `toks[start_at..]`. `Nat` subtraction is saturating subtraction. -/
def penaltyCtxt (repeat_last_n : Nat) (toks : List Nat) : List Nat :=
  toks.drop (toks.length - repeat_last_n)

/-- The panic message of `Result::unwrap` on an `Err` carrying `e`. -/
def unwrapErrMsg (e : String) : String :=
  "called `Result::unwrap()` on an `Err` value: " ++ e

/-- `GemmaPipeline::sample` (lines 368-385). Squeezes the logits twice and
casts to F32 (`unwrap`ping each step), builds the repetition context from
the trailing `repeat_last_n` tokens of the sequence history, and delegates
to the sampler owned by the sequence; a sampler error is returned, not a panic.
Possible self-mutation of the sampler is embedded by returning the updated
sequence. -/
def GemmaPipeline.sample {ε : ExtTypes} (env : SampleEnv ε)
    (self : GemmaPipeline ε) (logits : ε.T) (seq : Sequence ε) :
    Except RtError (ε.LPB × Sequence ε) :=
  match (env.squeeze logits 0).bind (fun t => env.squeeze t 0)
      |>.bind (fun t => env.to_dtype t DType.F32) with
  | Except.error e => Except.error (RtError.panic (unwrapErrMsg e))
  | Except.ok logits2 =>
      let ctxt := penaltyCtxt self.config.repeat_last_n seq.tokens
      match env.samplerSample seq.sampler logits2 (some ctxt) with
      | Except.ok (lp, samplerNew) =>
          Except.ok (lp, { seq with sampler := samplerNew })
      | Except.error e => Except.error (RtError.samplingError e)

/-- The method-call form of a `&self` introspection: borrowing the
receiver by shared reference returns the result together with the receiver,
which the borrow cannot have modified. One such form per introspection
operation of the `Pipeline` impl. -/
def GemmaPipeline.deviceCall {ε : ExtTypes} (self : GemmaPipeline ε) :
    Device × GemmaPipeline ε :=
  (self.device, self)

/-- Method-call form of `cache`. -/
def GemmaPipeline.cacheCall {ε : ExtTypes} (self : GemmaPipeline ε) :
    Cache ε × GemmaPipeline ε :=
  (self.cache, self)

/-- Method-call form of `num_hidden_layers`. -/
def GemmaPipeline.numHiddenLayersCall {ε : ExtTypes}
    (self : GemmaPipeline ε) : Nat × GemmaPipeline ε :=
  (self.num_hidden_layers, self)

/-- Method-call form of `get_max_seq_len`. -/
def GemmaPipeline.getMaxSeqLenCall {ε : ExtTypes}
    (self : GemmaPipeline ε) : Nat × GemmaPipeline ε :=
  (self.get_max_seq_len, self)

/-- Method-call form of `is_xlora`. -/
def GemmaPipeline.isXloraCall {ε : ExtTypes} (self : GemmaPipeline ε) :
    Bool × GemmaPipeline ε :=
  (self.is_xlora, self)

/-- Method-call form of `has_no_kv_cache`. -/
def GemmaPipeline.hasNoKvCacheCall {ε : ExtTypes}
    (self : GemmaPipeline ε) : Bool × GemmaPipeline ε :=
  (self.has_no_kv_cache, self)

/-- Method-call form of `tokenizer`. -/
def GemmaPipeline.tokenizerCall {ε : ExtTypes} (self : GemmaPipeline ε) :
    Tokenizer × GemmaPipeline ε :=
  (self.tokenizerOp, self)

/-- Method-call form of `name`. -/
def GemmaPipeline.nameCall {ε : ExtTypes} (self : GemmaPipeline ε) :
    String × GemmaPipeline ε :=
  (self.name, self)

/-- Method-call form of `get_chat_template`. -/
def GemmaPipeline.getChatTemplateCall {ε : ExtTypes}
    (self : GemmaPipeline ε) : ChatTemplate × GemmaPipeline ε :=
  (self.get_chat_template, self)

/-- Whether an `Except` value is a success. -/
def exceptIsOk {e α : Type} : Except e α → Bool
  | Except.ok _ => true
  | Except.error _ => false

/-- Successful bind decomposes into a successful head and tail. -/
theorem bind_ok_iff {e α β : Type} (a : Except e α) (f : α → Except e β)
    (b : β) :
    (a >>= f) = Except.ok b ↔ ∃ x, a = Except.ok x ∧ f x = Except.ok b := by
  cases a with
  | ok x =>
      constructor
      · intro h
        exact ⟨x, rfl, h⟩
      · rintro ⟨y, hy, hf⟩
        cases hy
        exact hf
  | error e =>
      constructor
      · intro h
        exact absurd h (by intro h; exact Except.noConfusion h)
      · rintro ⟨y, hy, _⟩
        exact Except.noConfusion hy

/-- A bind is a success exactly when the head succeeds and the tail
succeeds on its value. -/
theorem exceptIsOk_bind_iff {e α β : Type} {a : Except e α}
    {f : α → Except e β} :
    exceptIsOk (a >>= f) = true ↔
      ∃ x, a = Except.ok x ∧ exceptIsOk (f x) = true := by
  cases a with
  | ok x =>
      constructor
      · intro h
        exact ⟨x, rfl, h⟩
      · rintro ⟨y, hy, hf⟩
        cases hy
        exact hf
  | error e =>
      constructor
      · intro h
        exact absurd h (by simp [exceptIsOk, Bind.bind, Except.bind])
      · rintro ⟨y, hy, _⟩
        exact Except.noConfusion hy

/-- A successful `unwrap` means the option was `some`. -/
theorem unwrapO_ok {α : Type} {x : Option α} {a : α}
    (h : unwrapO x = Except.ok a) : x = some a := by
  cases x with
  | some b =>
      simp only [unwrapO] at h
      cases h
      rfl
  | none => exact Except.noConfusion h

/-- A successful bind headed by a required serde field means the field was
present. -/
theorem reqField_bind_ok {α β : Type} {x : Option α}
    {f : α → Except RtError β} {b : β}
    (h : (reqField x >>= f) = Except.ok b) :
    ∃ a, x = some a ∧ f a = Except.ok b := by
  cases x with
  | some a =>
      exact ⟨a, rfl, h⟩
  | none => exact Except.noConfusion h

/-- A concrete instantiation of the opaque collaborator types, for
exercising the definitions on closed inputs. -/
def unitExt : ExtTypes :=
  { P := Unit, LC := Unit, XC := Unit, ORD := Unit, ACT := Unit,
    VB := Unit, MS := Unit, XS := Unit, T := Unit, LPB := Unit,
    SMP := Unit, F := Unit }

/-- An instantiation whose `VarBuilder` and model interiors are `DType`
values, so the dtype handed to the weight loader can be observed in the
built pipeline. -/
def dtypeExt : ExtTypes :=
  { P := Unit, LC := Unit, XC := Unit, ORD := Unit, ACT := Unit,
    VB := DType, MS := DType, XS := DType, T := Unit, LPB := Unit,
    SMP := Unit, F := Unit }

/-- A raw config JSON with every required field present and
`max_position_embeddings` absent. -/
def rawJsonDefaulted (ε : ExtTypes) (act : ε.ACT) (fv : ε.F) :
    RawConfigJson ε :=
  { attention_bias := some false
    head_dim := some 32
    hidden_act := some act
    hidden_size := some 128
    intermediate_size := some 512
    num_attention_heads := some 4
    num_hidden_layers := some 2
    num_key_value_heads := some 4
    rms_norm_eps := some fv
    rope_theta := some fv
    vocab_size := some 32000
    max_position_embeddings := none }

/-- A concrete two-layer empty cache. -/
def cacheU (ε : ExtTypes) : Cache ε := ⟨[none, none]⟩

/-- A concrete tokenizer whose vocabulary maps the string `<eos>`
to id 2. -/
def tokU : Tokenizer :=
  ⟨fun _ s => if s = "<eos>" then some 2 else none⟩

/-- A concrete chat template whose EOS marker is the literal string
`<eos>`. -/
def ctU : ChatTemplate := ⟨Sum.inl "<eos>"⟩

/-- A fully successful setup environment over `unitExt`. -/
def okEnvU : SetupEnv unitExt :=
  { readConfigJson := fun _ => Except.ok (rawJsonDefaulted unitExt () ())
    fromMmapedSafetensors := fun _ _ _ _ _ => Except.ok ()
    normalNew := fun _ _ => Except.ok ⟨Device.Cpu, cacheU unitExt, 4096, ()⟩
    xloraNew := fun _ _ _ _ _ =>
      Except.ok ⟨Device.Cpu, cacheU unitExt, 4096, ()⟩
    tokenizerFromFile := fun _ => Except.ok tokU
    chatTemplate := fun _ _ => Except.ok ctU }

/-- A setup environment over `dtypeExt` that records, in the interior
state of the model it builds, the dtype it was asked to load weights
with. -/
def recEnv : SetupEnv dtypeExt :=
  { readConfigJson := fun _ => Except.ok (rawJsonDefaulted dtypeExt () ())
    fromMmapedSafetensors := fun _ _ dt _ _ => Except.ok dt
    normalNew := fun _ vb => Except.ok ⟨Device.Cpu, ⟨[]⟩, 4096, vb⟩
    xloraNew := fun _ vb _ _ _ => Except.ok ⟨Device.Cpu, ⟨[]⟩, 4096, vb⟩
    tokenizerFromFile := fun _ => Except.ok tokU
    chatTemplate := fun _ _ => Except.ok ctU }

/-- A concrete loader of the given kind. -/
def loaderFor (ε : ExtTypes) (kind : ModelKind) : GemmaLoader ε :=
  { model_id := "google/gemma-2b-it"
    config := ⟨64⟩
    quantized_model_id := none
    quantized_filename := none
    xlora_model_id := none
    kind := kind
    xlora_order := none
    no_kv_cache := false
    chat_template := none
    tokenizer_json := none }

/-- Concrete paths with every adapter field present. -/
def fullPathsFor (ε : ExtTypes) (p : ε.P) (lc : ε.LC) (xc : ε.XC)
    (od : ε.ORD) : GemmaModelPaths ε :=
  { tokenizer_filename := p
    config_filename := p
    template_filename := p
    filenames := [p]
    xlora_adapter_filenames := some [("adapter1", p)]
    xlora_adapter_configs := some [("adapter1", lc)]
    classifier_path := some p
    classifier_config := some xc
    xlora_ordering := some od }

/-- Concrete full paths over `unitExt`. -/
def fullPathsU : GemmaModelPaths unitExt :=
  fullPathsFor unitExt () () () ()

/-- Concrete paths over `unitExt` missing the classifier path. -/
def missingPathsU : GemmaModelPaths unitExt :=
  { fullPathsU with classifier_path := none }

/-- The pipeline produced by a successful base build over `unitExt`. -/
def pipeBaseU : GemmaPipeline unitExt :=
  { model := Model.Normal ⟨Device.Cpu, cacheU unitExt, 4096, ()⟩
    tokenizer := tokU
    config := ⟨64⟩
    no_kv_cache := false
    chat_template := ctU }

/-- The pipeline produced by a successful adapter-augmented build over
`unitExt`. -/
def pipeXloraU : GemmaPipeline unitExt :=
  { model := Model.XLoraNormal ⟨Device.Cpu, cacheU unitExt, 4096, ()⟩
    tokenizer := tokU
    config := ⟨64⟩
    no_kv_cache := false
    chat_template := ctU }

/-- The dtype recorded by `recEnv` in the pipeline built for the given
kind, dtype override and device; `none` when the build fails or the claim
inspects an unexpected variant. -/
def recordedDtype (kind : ModelKind) (dtype : Option DType)
    (device : Device) : Option DType :=
  match GemmaLoader.setupModel recEnv (loaderFor dtypeExt kind)
      (fullPathsFor dtypeExt () () () ()) dtype device with
  | Except.ok p =>
      match p.model with
      | Model.Normal m => some m.state
      | Model.XLoraNormal m => some m.state
  | Except.error _ => none

/-- On success, the parsed `max_position_embeddings` is the raw field with
the serde default applied. -/
theorem parseBasicConfig_ok_max {ε : ExtTypes} {j : RawConfigJson ε}
    {bc : BasicConfig ε} (h : parseBasicConfig j = Except.ok bc) :
    bc.max_position_embeddings =
      j.max_position_embeddings.getD default_max_position_embeddings := by
  unfold parseBasicConfig at h
  obtain ⟨ab, _, h⟩ := reqField_bind_ok h
  obtain ⟨hd, _, h⟩ := reqField_bind_ok h
  obtain ⟨ha, _, h⟩ := reqField_bind_ok h
  obtain ⟨hs, _, h⟩ := reqField_bind_ok h
  obtain ⟨im, _, h⟩ := reqField_bind_ok h
  obtain ⟨na, _, h⟩ := reqField_bind_ok h
  obtain ⟨nh, _, h⟩ := reqField_bind_ok h
  obtain ⟨nk, _, h⟩ := reqField_bind_ok h
  obtain ⟨re, _, h⟩ := reqField_bind_ok h
  obtain ⟨rt, _, h⟩ := reqField_bind_ok h
  obtain ⟨vs, _, h⟩ := reqField_bind_ok h
  cases h
  rfl

/-- Claim C6: parsing a raw config that omits `max_position_embeddings`
yields 4096, and an explicit value is taken verbatim. -/
theorem claim_C6 (ε : ExtTypes) (j : RawConfigJson ε) :
    (j.max_position_embeddings = none →
      ∀ bc, parseBasicConfig j = Except.ok bc →
        bc.max_position_embeddings = 4096)
    ∧ (∀ v, j.max_position_embeddings = some v →
      ∀ bc, parseBasicConfig j = Except.ok bc →
        bc.max_position_embeddings = v) := by
  constructor
  · intro hnone bc h
    rw [parseBasicConfig_ok_max h, hnone]
    rfl
  · intro v hv bc h
    rw [parseBasicConfig_ok_max h, hv]
    rfl

/-- The `BasicConfig` produced by parsing `rawJsonDefaulted unitExt`. -/
def bcDefaultedU : BasicConfig unitExt :=
  { attention_bias := false
    head_dim := 32
    hidden_act := ()
    hidden_size := 128
    intermediate_size := 512
    num_attention_heads := 4
    num_hidden_layers := 2
    num_key_value_heads := 4
    rms_norm_eps := ()
    rope_theta := ()
    vocab_size := 32000
    max_position_embeddings := 4096 }

/-- Witness for claim C6: a concrete parse with the field absent yields
4096, and a concrete parse with the field set to 8192 yields 8192. -/
theorem claim_C6_witness :
    bcDefaultedU.max_position_embeddings = 4096
    ∧ ({ bcDefaultedU with max_position_embeddings := 8192 }
        : BasicConfig unitExt).max_position_embeddings = 8192 := by
  constructor
  · exact (claim_C6 unitExt (rawJsonDefaulted unitExt () ())).1 rfl
      bcDefaultedU rfl
  · exact (claim_C6 unitExt
      { rawJsonDefaulted unitExt () () with
        max_position_embeddings := some 8192 }).2 8192 rfl
      { bcDefaultedU with max_position_embeddings := 8192 } rfl

/-- Claim C2: the repetition-penalty context built by `sample` has length
`min L R` for history length `L` and `repeat_last_n = R`, equals the last
`min L R` history tokens in their original order, and is exactly the
context handed to the sampler owned by the sequence. -/
theorem claim_C2 (R : Nat) (toks : List Nat) :
    (penaltyCtxt R toks).length = min toks.length R
    ∧ penaltyCtxt R toks = (toks.reverse.take (min toks.length R)).reverse
    ∧ ∀ (ε : ExtTypes) (env : SampleEnv ε) (self : GemmaPipeline ε)
        (logits : ε.T) (seq : Sequence ε) (t2 : ε.T),
        ((env.squeeze logits 0).bind (fun t => env.squeeze t 0)).bind
            (fun t => env.to_dtype t DType.F32) = Except.ok t2 →
        GemmaPipeline.sample env self logits seq =
          match env.samplerSample seq.sampler t2
              (some (penaltyCtxt self.config.repeat_last_n seq.tokens)) with
          | Except.ok (lp, samplerNew) =>
              Except.ok (lp, { seq with sampler := samplerNew })
          | Except.error e => Except.error (RtError.samplingError e) := by
  refine ⟨?_, ?_, ?_⟩
  · simp only [penaltyCtxt, List.length_drop]
    omega
  · have h1 : penaltyCtxt R toks = List.rtake toks R := rfl
    rw [h1, List.rtake_eq_reverse_take_reverse]
    congr 1
    rw [List.take_eq_take]
    simp only [List.length_reverse]
    omega
  · intro ε env self logits seq t2 hsq
    unfold GemmaPipeline.sample
    rw [hsq]

/-- A sampling environment over `unitExt` whose tensor operations succeed
and whose sampler returns its own state unchanged. -/
def sampleEnvU : SampleEnv unitExt :=
  { squeeze := fun t _ => Except.ok t
    to_dtype := fun t _ => Except.ok t
    samplerSample := fun s _ _ => Except.ok ((), s) }

/-- A concrete three-token sequence over `unitExt`. -/
def seqU : Sequence unitExt := ⟨[1, 2, 3], ()⟩

/-- Witness for claim C2: the context for `R = 2` over a three-token
history is the last two tokens in order, and a concrete `sample` call
delivers the context to the sampler and succeeds. -/
theorem claim_C2_witness :
    penaltyCtxt 2 [10, 20, 30] = [20, 30]
    ∧ GemmaPipeline.sample sampleEnvU pipeBaseU () seqU =
        Except.ok ((), seqU) := by
  constructor
  · exact ((claim_C2 2 [10, 20, 30]).2.1).trans (by decide)
  · exact ((claim_C2 0 []).2.2 unitExt sampleEnvU pipeBaseU () seqU ()
      rfl).trans rfl

/-- Claim C10: the penalty-context start index is a saturating
subtraction, hence never past the end of the history; `R = 0` gives the
empty context and `R` at least the history length gives the whole
history. -/
theorem claim_C10 (R : Nat) (toks : List Nat) :
    toks.length - R ≤ toks.length
    ∧ (penaltyCtxt R toks).length ≤ toks.length
    ∧ (R = 0 → penaltyCtxt R toks = [])
    ∧ (toks.length ≤ R → penaltyCtxt R toks = toks) := by
  refine ⟨Nat.sub_le _ _, ?_, ?_, ?_⟩
  · simp only [penaltyCtxt, List.length_drop]
    omega
  · intro h
    subst h
    simp [penaltyCtxt]
  · intro h
    have h0 : toks.length - R = 0 := Nat.sub_eq_zero_of_le h
    simp [penaltyCtxt, h0]

/-- Witness for claim C10: concrete empty and whole-history contexts. -/
theorem claim_C10_witness :
    penaltyCtxt 0 [1, 2, 3] = [] ∧ penaltyCtxt 5 [1, 2, 3] = [1, 2, 3] :=
  ⟨(claim_C10 0 [1, 2, 3]).2.2.1 rfl,
   (claim_C10 5 [1, 2, 3]).2.2.2 (by decide)⟩

/-- Claim C3: `eos_tok` returns exactly the vocabulary entry for the
resolved EOS string of the template, and panics rather than substituting an id
when the string is absent from the vocabulary. -/
theorem claim_C3 (ε : ExtTypes) (p : GemmaPipeline ε) :
    (∀ id, p.eos_tok = Except.ok id →
      p.tokenizer.getVocab true p.eosStr = some id)
    ∧ (∀ id, p.tokenizer.getVocab true p.eosStr = some id →
      p.eos_tok = Except.ok id)
    ∧ (p.tokenizer.getVocab true p.eosStr = none →
      p.eos_tok = Except.error (RtError.panic
        ("Unable to extract `" ++ p.eosStr ++ "` EOS token."))) := by
  unfold GemmaPipeline.eos_tok
  cases hv : p.tokenizer.getVocab true p.eosStr with
  | none =>
      refine ⟨fun id h => ?_, fun id h => ?_, fun _ => rfl⟩
      · exact Except.noConfusion h
      · exact Option.noConfusion h
  | some v =>
      refine ⟨fun id h => ?_, fun id h => ?_, fun h => Option.noConfusion h⟩
      · cases h
        rfl
      · cases h
        rfl

/-- A pipeline whose template EOS string is absent from the vocabulary. -/
def pipeNoEosU : GemmaPipeline unitExt :=
  { pipeBaseU with chat_template := ⟨Sum.inl "<nope>"⟩ }

/-- Witness for claim C3: the concrete pipeline resolves `<eos>` to its
vocabulary id 2, and the pipeline with an unknown EOS string panics. -/
theorem claim_C3_witness :
    pipeBaseU.eos_tok = Except.ok 2
    ∧ pipeNoEosU.eos_tok = Except.error (RtError.panic
        ("Unable to extract `" ++ pipeNoEosU.eosStr ++ "` EOS token.")) :=
  ⟨(claim_C3 unitExt pipeBaseU).2.1 2 rfl,
   (claim_C3 unitExt pipeNoEosU).2.2 rfl⟩

/-- Claim C9: every introspection operation of the pipeline returns its
value alongside an unchanged pipeline; none of them modifies any field of
the pipeline or its model. -/
theorem claim_C9 (ε : ExtTypes) (p : GemmaPipeline ε) :
    (p.deviceCall).2 = p
    ∧ (p.cacheCall).2 = p
    ∧ (p.numHiddenLayersCall).2 = p
    ∧ (p.getMaxSeqLenCall).2 = p
    ∧ (p.isXloraCall).2 = p
    ∧ (p.hasNoKvCacheCall).2 = p
    ∧ (p.tokenizerCall).2 = p
    ∧ (p.nameCall).2 = p
    ∧ (p.getChatTemplateCall).2 = p :=
  ⟨rfl, rfl, rfl, rfl, rfl, rfl, rfl, rfl, rfl⟩

/-- Bind on a success reduces to the continuation. -/
theorem ok_bind {e α β : Type} (a : α) (f : α → Except e β) :
    (Except.ok a >>= f : Except e β) = f a := rfl

/-- A successful adapter-augmented build requires every adapter artifact
field: the `XLoraNormal` arm of `_setup_model` `unwrap`s all five of
them. -/
theorem setupModel_xlora_fields {ε : ExtTypes} {env : SetupEnv ε}
    {self : GemmaLoader ε} {paths : GemmaModelPaths ε}
    {dtype : Option DType} {device : Device}
    (hk : self.kind = ModelKind.XLoraNormal)
    (h : exceptIsOk (GemmaLoader.setupModel env self paths dtype device)
      = true) :
    paths.classifier_path.isSome = true
    ∧ paths.xlora_adapter_filenames.isSome = true
    ∧ paths.xlora_adapter_configs.isSome = true
    ∧ paths.classifier_config.isSome = true
    ∧ paths.xlora_ordering.isSome = true := by
  unfold GemmaLoader.setupModel at h
  rw [hk] at h
  obtain ⟨j, hj, h⟩ := exceptIsOk_bind_iff.mp h
  obtain ⟨bc, hbc, h⟩ := exceptIsOk_bind_iff.mp h
  obtain ⟨c, hc, h⟩ := exceptIsOk_bind_iff.mp h
  obtain ⟨af, haf, h⟩ := exceptIsOk_bind_iff.mp h
  obtain ⟨vb, hvb, h⟩ := exceptIsOk_bind_iff.mp h
  obtain ⟨ac, hac, h⟩ := exceptIsOk_bind_iff.mp h
  obtain ⟨cc, hcc, h⟩ := exceptIsOk_bind_iff.mp h
  obtain ⟨xo, hxo, h⟩ := exceptIsOk_bind_iff.mp h
  refine ⟨?_, ?_, ?_, ?_, ?_⟩
  · rw [unwrapO_ok hc]; rfl
  · rw [unwrapO_ok haf]; rfl
  · rw [unwrapO_ok hac]; rfl
  · rw [unwrapO_ok hcc]; rfl
  · rw [unwrapO_ok hxo]; rfl

/-- Claim C1: an adapter-augmented (`XLoraNormal`) build with any adapter
artifact field absent fails inside `_setup_model` itself (its result is
never a pipeline, so no failure can be deferred to `forward`), and a base
(`Normal`) build is entirely independent of the adapter-only fields. -/
theorem claim_C1 (ε : ExtTypes) (env : SetupEnv ε) (self : GemmaLoader ε)
    (paths : GemmaModelPaths ε) (dtype : Option DType) (device : Device) :
    (self.kind = ModelKind.XLoraNormal →
      (paths.xlora_adapter_filenames = none ∨
       paths.xlora_adapter_configs = none ∨
       paths.classifier_path = none ∨
       paths.classifier_config = none ∨
       paths.xlora_ordering = none) →
      exceptIsOk (GemmaLoader.setupModel env self paths dtype device)
        = false)
    ∧ (self.kind = ModelKind.Normal →
      ∀ (af : Option (List (String × ε.P)))
        (ac : Option (List (String × ε.LC))) (cp : Option ε.P)
        (cc : Option ε.XC) (xo : Option ε.ORD),
        GemmaLoader.setupModel env self
          { paths with
            xlora_adapter_filenames := af
            xlora_adapter_configs := ac
            classifier_path := cp
            classifier_config := cc
            xlora_ordering := xo } dtype device
          = GemmaLoader.setupModel env self paths dtype device) := by
  constructor
  · intro hk hmiss
    cases hok : exceptIsOk (GemmaLoader.setupModel env self paths dtype
        device) with
    | false => rfl
    | true =>
        obtain ⟨h1, h2, h3, h4, h5⟩ := setupModel_xlora_fields hk hok
        rcases hmiss with h | h | h | h | h
        · rw [h] at h2; simp at h2
        · rw [h] at h3; simp at h3
        · rw [h] at h1; simp at h1
        · rw [h] at h4; simp at h4
        · rw [h] at h5; simp at h5
  · intro hk af ac cp cc xo
    unfold GemmaLoader.setupModel
    rw [hk]

/-- Witness for claim C1: a concrete adapter-augmented build missing the
classifier path fails, and a concrete base build is unchanged when every
adapter field is dropped. -/
theorem claim_C1_witness :
    exceptIsOk (GemmaLoader.setupModel okEnvU
        (loaderFor unitExt ModelKind.XLoraNormal) missingPathsU none
        Device.Cpu) = false
    ∧ GemmaLoader.setupModel okEnvU (loaderFor unitExt ModelKind.Normal)
        { fullPathsU with
          xlora_adapter_filenames := none
          xlora_adapter_configs := none
          classifier_path := none
          classifier_config := none
          xlora_ordering := none } none Device.Cpu
      = GemmaLoader.setupModel okEnvU (loaderFor unitExt ModelKind.Normal)
          fullPathsU none Device.Cpu :=
  ⟨(claim_C1 unitExt okEnvU (loaderFor unitExt ModelKind.XLoraNormal)
      missingPathsU none Device.Cpu).1 rfl (Or.inr (Or.inr (Or.inl rfl))),
   (claim_C1 unitExt okEnvU (loaderFor unitExt ModelKind.Normal)
      fullPathsU none Device.Cpu).2 rfl none none none none none⟩

/-- Claim C4: for each of the four unimplemented kinds (`QuantizedGGUF`,
`QuantizedGGML`, `XLoraGGUF`, `XLoraGGML`), `_setup_model` never builds a
pipeline, and once the config has been read and parsed the result is
exactly the fatal `unreachable` panic — there is no fallback to another
weight format. -/
theorem claim_C4 (ε : ExtTypes) (env : SetupEnv ε) (self : GemmaLoader ε)
    (paths : GemmaModelPaths ε) (dtype : Option DType) (device : Device)
    (hk : self.kind = ModelKind.QuantizedGGUF
      ∨ self.kind = ModelKind.QuantizedGGML
      ∨ self.kind = ModelKind.XLoraGGUF
      ∨ self.kind = ModelKind.XLoraGGML) :
    exceptIsOk (GemmaLoader.setupModel env self paths dtype device) = false
    ∧ ∀ j, env.readConfigJson paths.config_filename = Except.ok j →
      ∀ bc, parseBasicConfig j = Except.ok bc →
        GemmaLoader.setupModel env self paths dtype device
          = Except.error (RtError.panic unreachableMsg) := by
  constructor
  · cases hok : exceptIsOk (GemmaLoader.setupModel env self paths dtype
        device) with
    | false => rfl
    | true =>
        exfalso
        unfold GemmaLoader.setupModel at hok
        rcases hk with h | h | h | h <;> rw [h] at hok <;>
          (obtain ⟨j, hj, hok⟩ := exceptIsOk_bind_iff.mp hok;
           obtain ⟨bc, hbc, hok⟩ := exceptIsOk_bind_iff.mp hok;
           obtain ⟨model, hmodel, hok⟩ := exceptIsOk_bind_iff.mp hok;
           exact Except.noConfusion hmodel)
  · intro j hj bc hbc
    unfold GemmaLoader.setupModel
    rcases hk with h | h | h | h <;>
      rw [h, hj, ok_bind, hbc, ok_bind] <;> rfl

/-- Witness for claim C4: a concrete `QuantizedGGUF` request fails with
the fatal panic. -/
theorem claim_C4_witness :
    exceptIsOk (GemmaLoader.setupModel okEnvU
        (loaderFor unitExt ModelKind.QuantizedGGUF) fullPathsU none
        Device.Cpu) = false
    ∧ GemmaLoader.setupModel okEnvU
        (loaderFor unitExt ModelKind.QuantizedGGUF) fullPathsU none
        Device.Cpu = Except.error (RtError.panic unreachableMsg) := by
  have h := claim_C4 unitExt okEnvU (loaderFor unitExt ModelKind.QuantizedGGUF)
    fullPathsU none Device.Cpu (Or.inl rfl)
  exact ⟨h.1, h.2 (rawJsonDefaulted unitExt () ()) rfl bcDefaultedU rfl⟩

/-- Claim C5: `forward` panics (never returns logits) exactly when the
dispatched model computation fails, and returns the output tensor of the model
(with the updated model state) exactly when it succeeds; for the
adapter-augmented variant this holds once the full-path inputs the arm
`unwrap`s are present. -/
theorem claim_C5 (ε : ExtTypes) (env : ForwardEnv ε) (p : GemmaPipeline ε)
    (toks : List (Sequence ε)) (is_prompt : Bool) (i : CalcInputs ε)
    (hi : env.calculate_inputs toks is_prompt p.is_xlora p.device
      p.no_kv_cache = i) :
    (∀ m, p.model = Model.Normal m →
      (∀ e, env.normalForward m i.input_ids i.seqlen_offsets
          i.seqlen_offsets_kernel = Except.error e →
        GemmaPipeline.forward env p toks is_prompt
          = Except.error (RtError.panic (modelFailedMsg e)))
      ∧ (∀ v mNew, env.normalForward m i.input_ids i.seqlen_offsets
          i.seqlen_offsets_kernel = Except.ok (v, mNew) →
        GemmaPipeline.forward env p toks is_prompt
          = Except.ok (v, { p with model := Model.Normal mNew })))
    ∧ (∀ m, p.model = Model.XLoraNormal m →
      ∀ idsf offf offfk, i.input_ids_full = some idsf →
        i.seqlen_offsets_full = some offf →
        i.seqlen_offsets_full_kernel = some offfk →
      (∀ e, env.xloraForward m i.input_ids idsf i.seqlen_offsets offf
          i.seqlen_offsets_kernel offfk p.no_kv_cache = Except.error e →
        GemmaPipeline.forward env p toks is_prompt
          = Except.error (RtError.panic (modelFailedMsg e)))
      ∧ (∀ v mNew, env.xloraForward m i.input_ids idsf i.seqlen_offsets
          offf i.seqlen_offsets_kernel offfk p.no_kv_cache
          = Except.ok (v, mNew) →
        GemmaPipeline.forward env p toks is_prompt
          = Except.ok (v, { p with model := Model.XLoraNormal mNew }))) := by
  obtain ⟨pm, ptk, pcfg, pnk, pct⟩ := p
  constructor
  · intro m hm
    cases hm
    unfold GemmaPipeline.forward
    rw [hi]
    dsimp only
    constructor
    · intro e he
      rw [he]
    · intro v mNew hv
      rw [hv]
  · intro m hm idsf offf offfk h1 h2 h3
    cases hm
    unfold GemmaPipeline.forward
    rw [hi]
    dsimp only
    rw [h1, h2, h3]
    dsimp only
    constructor
    · intro e he
      rw [he]
    · intro v mNew hv
      rw [hv]

/-- A forward environment over `unitExt` whose input assembly provides
both paths and whose model computations succeed. -/
def fwdEnvOkU : ForwardEnv unitExt :=
  { calculate_inputs := fun _ _ _ _ _ =>
      ⟨(), some (), [0], some [0], (), some ()⟩
    normalForward := fun m _ _ _ => Except.ok ((), m)
    xloraForward := fun m _ _ _ _ _ _ _ => Except.ok ((), m) }

/-- A forward environment over `unitExt` whose model computation fails. -/
def fwdEnvErrU : ForwardEnv unitExt :=
  { calculate_inputs := fun _ _ _ _ _ =>
      ⟨(), some (), [0], some [0], (), some ()⟩
    normalForward := fun _ _ _ _ => Except.error "boom"
    xloraForward := fun _ _ _ _ _ _ _ _ => Except.error "boom" }

/-- Witness for claim C5: a concrete successful forward returns the model
output, and a concrete failing model computation makes `forward` panic. -/
theorem claim_C5_witness :
    GemmaPipeline.forward fwdEnvOkU pipeBaseU [] false
      = Except.ok ((), pipeBaseU)
    ∧ GemmaPipeline.forward fwdEnvErrU pipeBaseU [] false
      = Except.error (RtError.panic (modelFailedMsg "boom")) := by
  constructor
  · exact (((claim_C5 unitExt fwdEnvOkU pipeBaseU [] false
      ⟨(), some (), [0], some [0], (), some ()⟩ rfl).1
      ⟨Device.Cpu, cacheU unitExt, 4096, ()⟩ rfl).2 ()
      ⟨Device.Cpu, cacheU unitExt, 4096, ()⟩ rfl).trans rfl
  · exact ((claim_C5 unitExt fwdEnvErrU pipeBaseU [] false
      ⟨(), some (), [0], some [0], (), some ()⟩ rfl).1
      ⟨Device.Cpu, cacheU unitExt, 4096, ()⟩ rfl).1 "boom" rfl

/-- Claim C7: with no caller override, `_setup_model` behaves exactly as
if the caller had passed BF16 on a CUDA device and F32 on any other
device; and the dtype actually handed to the weight loader (observed via a
recording environment) is the override when given, else the
device-determined default. -/
theorem claim_C7 :
    (∀ (ε : ExtTypes) (env : SetupEnv ε) (self : GemmaLoader ε)
      (paths : GemmaModelPaths ε) (device : Device),
      GemmaLoader.setupModel env self paths none device
        = GemmaLoader.setupModel env self paths
            (some (if device.is_cuda then DType.BF16 else DType.F32))
            device)
    ∧ (∀ (kind : ModelKind) (dtype : Option DType) (device : Device),
      kind = ModelKind.Normal ∨ kind = ModelKind.XLoraNormal →
      recordedDtype kind dtype device
        = some (dtype.getD
            (if device.is_cuda then DType.BF16 else DType.F32))) := by
  constructor
  · intro ε env self paths device
    rfl
  · intro kind dtype device h
    rcases h with h | h <;> subst h <;> cases dtype <;> cases device <;> rfl

/-- Witness for claim C7: concrete recorded dtypes — BF16 by default on
CUDA, F32 by default on CPU, and a caller override taken verbatim. -/
theorem claim_C7_witness :
    recordedDtype ModelKind.Normal none (Device.Cuda 0) = some DType.BF16
    ∧ recordedDtype ModelKind.Normal none Device.Cpu = some DType.F32
    ∧ recordedDtype ModelKind.XLoraNormal (some DType.F16) (Device.Cuda 0)
      = some DType.F16 :=
  ⟨(claim_C7.2 ModelKind.Normal none (Device.Cuda 0) (Or.inl rfl)).trans rfl,
   (claim_C7.2 ModelKind.Normal none Device.Cpu (Or.inl rfl)).trans rfl,
   (claim_C7.2 ModelKind.XLoraNormal (some DType.F16) (Device.Cuda 0)
     (Or.inr rfl)).trans rfl⟩

/-- A successful build pairs the `Normal` kind with a base model and the
`XLoraNormal` kind with an adapter-augmented model; no other kind
builds. -/
theorem setupModel_ok_model {ε : ExtTypes} {env : SetupEnv ε}
    {self : GemmaLoader ε} {paths : GemmaModelPaths ε}
    {dtype : Option DType} {device : Device} {p : GemmaPipeline ε}
    (h : GemmaLoader.setupModel env self paths dtype device
      = Except.ok p) :
    (self.kind = ModelKind.Normal ∧ ∃ m, p.model = Model.Normal m)
    ∨ (self.kind = ModelKind.XLoraNormal
        ∧ ∃ m, p.model = Model.XLoraNormal m) := by
  unfold GemmaLoader.setupModel at h
  cases hk : self.kind <;> rw [hk] at h
  case Normal =>
    left
    refine ⟨rfl, ?_⟩
    obtain ⟨j, hj, h⟩ := (bind_ok_iff _ _ _).mp h
    obtain ⟨bc, hbc, h⟩ := (bind_ok_iff _ _ _).mp h
    obtain ⟨vb, hvb, h⟩ := (bind_ok_iff _ _ _).mp h
    obtain ⟨m, hm, h⟩ := (bind_ok_iff _ _ _).mp h
    obtain ⟨y, hy, h⟩ := (bind_ok_iff _ _ _).mp h
    obtain ⟨tk, htk, h⟩ := (bind_ok_iff _ _ _).mp h
    obtain ⟨ct, hct, h⟩ := (bind_ok_iff _ _ _).mp h
    cases hy
    cases h
    exact ⟨m, rfl⟩
  case QuantizedGGUF =>
    obtain ⟨j, hj, h⟩ := (bind_ok_iff _ _ _).mp h
    obtain ⟨bc, hbc, h⟩ := (bind_ok_iff _ _ _).mp h
    obtain ⟨y, hy, h⟩ := (bind_ok_iff _ _ _).mp h
    exact Except.noConfusion hy
  case QuantizedGGML =>
    obtain ⟨j, hj, h⟩ := (bind_ok_iff _ _ _).mp h
    obtain ⟨bc, hbc, h⟩ := (bind_ok_iff _ _ _).mp h
    obtain ⟨y, hy, h⟩ := (bind_ok_iff _ _ _).mp h
    exact Except.noConfusion hy
  case XLoraNormal =>
    right
    refine ⟨rfl, ?_⟩
    obtain ⟨j, hj, h⟩ := (bind_ok_iff _ _ _).mp h
    obtain ⟨bc, hbc, h⟩ := (bind_ok_iff _ _ _).mp h
    obtain ⟨c, hc, h⟩ := (bind_ok_iff _ _ _).mp h
    obtain ⟨af, haf, h⟩ := (bind_ok_iff _ _ _).mp h
    obtain ⟨vb, hvb, h⟩ := (bind_ok_iff _ _ _).mp h
    obtain ⟨ac, hac, h⟩ := (bind_ok_iff _ _ _).mp h
    obtain ⟨cc, hcc, h⟩ := (bind_ok_iff _ _ _).mp h
    obtain ⟨xo, hxo, h⟩ := (bind_ok_iff _ _ _).mp h
    obtain ⟨m, hm, h⟩ := (bind_ok_iff _ _ _).mp h
    obtain ⟨y, hy, h⟩ := (bind_ok_iff _ _ _).mp h
    obtain ⟨tk, htk, h⟩ := (bind_ok_iff _ _ _).mp h
    obtain ⟨ct, hct, h⟩ := (bind_ok_iff _ _ _).mp h
    cases hy
    cases h
    exact ⟨m, rfl⟩
  case XLoraGGUF =>
    obtain ⟨j, hj, h⟩ := (bind_ok_iff _ _ _).mp h
    obtain ⟨bc, hbc, h⟩ := (bind_ok_iff _ _ _).mp h
    obtain ⟨y, hy, h⟩ := (bind_ok_iff _ _ _).mp h
    exact Except.noConfusion hy
  case XLoraGGML =>
    obtain ⟨j, hj, h⟩ := (bind_ok_iff _ _ _).mp h
    obtain ⟨bc, hbc, h⟩ := (bind_ok_iff _ _ _).mp h
    obtain ⟨y, hy, h⟩ := (bind_ok_iff _ _ _).mp h
    exact Except.noConfusion hy

/-- A successful `forward` call never changes which model variant the
pipeline holds. -/
theorem forward_preserves_is_xlora {ε : ExtTypes} (env : ForwardEnv ε)
    (p : GemmaPipeline ε) (toks : List (Sequence ε)) (is_prompt : Bool)
    (v : ε.T) (p2 : GemmaPipeline ε)
    (h : GemmaPipeline.forward env p toks is_prompt = Except.ok (v, p2)) :
    p2.is_xlora = p.is_xlora := by
  obtain ⟨pm, ptk, pcfg, pnk, pct⟩ := p
  unfold GemmaPipeline.forward at h
  cases pm with
  | Normal m =>
      dsimp only at h
      split at h
      · cases h
        rfl
      · exact Except.noConfusion h
  | XLoraNormal m =>
      dsimp only at h
      split at h
      · split at h
        · cases h
          rfl
        · exact Except.noConfusion h
      · exact Except.noConfusion h

/-- Claim C8: a pipeline built by `_setup_model` reports `is_xlora` true
exactly when the requested kind was `XLoraNormal` (hence false for
`Normal`), and no successful `forward` call ever changes that answer. -/
theorem claim_C8 (ε : ExtTypes) (env : SetupEnv ε) (self : GemmaLoader ε)
    (paths : GemmaModelPaths ε) (dtype : Option DType) (device : Device)
    (p : GemmaPipeline ε)
    (h : GemmaLoader.setupModel env self paths dtype device
      = Except.ok p) :
    (p.is_xlora = true ↔ self.kind = ModelKind.XLoraNormal)
    ∧ (∀ (fenv : ForwardEnv ε) (toks : List (Sequence ε))
        (is_prompt : Bool) (v : ε.T) (p2 : GemmaPipeline ε),
        GemmaPipeline.forward fenv p toks is_prompt = Except.ok (v, p2) →
        p2.is_xlora = p.is_xlora) := by
  constructor
  · rcases setupModel_ok_model h with ⟨hk, m, hm⟩ | ⟨hk, m, hm⟩
    · constructor
      · intro hx
        unfold GemmaPipeline.is_xlora at hx
        rw [hm] at hx
        simp at hx
      · intro hkx
        rw [hk] at hkx
        exact ModelKind.noConfusion hkx
    · constructor
      · intro _
        exact hk
      · intro _
        unfold GemmaPipeline.is_xlora
        rw [hm]
  · intro fenv toks is_prompt v p2 hf
    exact forward_preserves_is_xlora fenv p toks is_prompt v p2 hf

/-- Witness for claim C8: a concrete base build reports `is_xlora` false
and a concrete adapter-augmented build reports it true. -/
theorem claim_C8_witness :
    (pipeBaseU.is_xlora = true
      ↔ (loaderFor unitExt ModelKind.Normal).kind = ModelKind.XLoraNormal)
    ∧ (pipeXloraU.is_xlora = true
      ↔ (loaderFor unitExt ModelKind.XLoraNormal).kind
          = ModelKind.XLoraNormal) :=
  ⟨(claim_C8 unitExt okEnvU (loaderFor unitExt ModelKind.Normal) fullPathsU
      none Device.Cpu pipeBaseU rfl).1,
   (claim_C8 unitExt okEnvU (loaderFor unitExt ModelKind.XLoraNormal)
      fullPathsU none Device.Cpu pipeXloraU rfl).1⟩

end Gemma
